import Mathlib

/- Verification of the rooby/goby interpreter core against its specification.

   Part 1 embeds the tree-walking evaluator of evaluator/evaluator.go:
   the object model, method dispatch (sendMethodCall, evalClassMethod,
   evalInstanceMethod), argument evaluation (evalArgs), statement-sequence
   evaluation (evalProgram) and return-signal unwrapping (unwrapReturnValue).
   Recursion through method bodies is cut with an explicit fuel parameter;
   a result of none means the fuel ran out, never a language-level outcome.

   Part 2 models the built-in array operations fixed by the vm array tests.  -/

namespace Rooby

/- Abstract syntax. The Go AST keeps statements and expressions as distinct
   interfaces: call arguments and return values are expressions, method
   bodies are block statements. Only the node kinds the claims exercise are
   embedded. -/

mutual

inductive Expr where
  | integerLiteral (value : Int)
  | stringLiteral (value : String)
  | booleanLit (value : Bool)
  | selfExpression
  | callExpression (receiver : Expr) (method : String) (arguments : List Expr)

inductive Stmt where
  | expressionStatement (expression : Expr)
  | returnStatement (returnValue : Expr)
  | blockStatement (statements : List Stmt)

end

/-- Modelled from the spec: the object package's built-in native functions are
not under src/; each BuiltInMethod's Fn is represented by a tag interpreted by
applyBuiltin, keeping the dispatcher's behaviour (which is in src/) exact. -/
inductive BuiltinFn where
  | argCount
  | firstArg

/- Runtime objects of the object package: the variants referenced by
   evaluator.go. goNil stands for Go's nil object.Object (unset result
   variable, unhandled node); it is distinct from the language's Null. -/

mutual

inductive Obj where
  | integer (value : Int)
  | strVal (value : String)
  | boolean (value : Bool)
  | null
  | goNil
  | errObj (message : String)
  | returnValue (value : Obj)
  | classObj (cls : RClass)
  | baseObject (cls : RClass) (instanceVariables : List (String × Obj))
  | methodObj (m : RMethod)
  | builtInMethod (fn : BuiltinFn)

inductive RClass where
  | mk (name : String) (superClass : Option RClass)
      (classMethods : List (String × Obj)) (instanceMethods : List (String × Obj))

inductive RMethod where
  | mk (parameters : List String) (body : Stmt) (scope : RScope)

inductive RScope where
  | mk (self : Obj) (env : REnv)

inductive REnv where
  | mk (store : List (String × Obj)) (outer : Option REnv)

end

def RClass.name : RClass → String
  | .mk n _ _ _ => n

def RClass.superClass : RClass → Option RClass
  | .mk _ s _ _ => s

def RClass.classMethods : RClass → List (String × Obj)
  | .mk _ _ c _ => c

def RClass.instanceMethods : RClass → List (String × Obj)
  | .mk _ _ _ i => i

def RMethod.parameters : RMethod → List String
  | .mk p _ _ => p

def RMethod.body : RMethod → Stmt
  | .mk _ b _ => b

def RMethod.scope : RMethod → RScope
  | .mk _ _ s => s

def RScope.self : RScope → Obj
  | .mk s _ => s

def RScope.env : RScope → REnv
  | .mk _ e => e

/-- Lookup in a method table (object.Environment's Get restricted to the way
the evaluator uses class method maps: unique keys, first match). -/
def lookupTable : List (String × Obj) → String → Option Obj
  | [], _ => none
  | (k, v) :: rest, key => if k = key then some v else lookupTable rest key

/-- Modelled from the spec: Inspect formatting belongs to the presentation
layer (object package, not under src/) and is rendered minimally; no claim
depends on a particular rendering. -/
def inspect : Obj → String
  | .integer n => toString n
  | .strVal s => s
  | .boolean b => toString b
  | .null => "null"
  | .goNil => ""
  | .errObj m => m
  | .returnValue v => inspect v
  | .classObj c => c.name
  | .baseObject c _ => c.name
  | .methodObj _ => "method"
  | .builtInMethod _ => "builtin method"

/-- isError from evaluator.go: true exactly on Error objects (false on nil). -/
def isError : Obj → Bool
  | .errObj _ => true
  | _ => false

/-- unwrapReturnValue from evaluator.go. -/
def unwrapReturnValue : Obj → Obj
  | .returnValue v => v
  | o => o

/-- Modelled from the spec: object.NewClosedEnvironment (object package not
under src/) — a fresh empty store whose outer link is the given environment. -/
def newClosedEnvironment (outer : REnv) : REnv :=
  .mk [] (some outer)

/-- Modelled from the spec: Environment.Set binds the name in the local store
(parameter binding in extendMethodEnv always declares locally). -/
def REnv.setVar : REnv → String → Obj → REnv
  | .mk store outer, n, v => .mk ((n, v) :: store) outer

/-- extendMethodEnv from evaluator.go: child of the method's defining
environment with each parameter bound positionally to its argument. Both call
sites run it only after the arity check, so zip loses nothing. -/
def extendMethodEnv (m : RMethod) (args : List Obj) : REnv :=
  (m.parameters.zip args).foldl (fun e pa => e.setVar pa.1 pa.2)
    (newClosedEnvironment m.scope.env)

/-- Modelled from the spec: the semantics of the tagged native functions. Each
does its own argument handling and performs no arity check of its own caller. -/
def applyBuiltin : BuiltinFn → List Obj → Obj
  | .argCount, args => .integer (args.length : Int)
  | .firstArg, args => args.headD .null

mutual

/-- Eval from evaluator.go restricted to expression nodes (the Go node switch
on expression kinds). The CallExpression case evaluates the receiver, then the
arguments, then hands off to sendMethodCall unconditionally. -/
def evalExpr : Nat → Expr → RScope → Option Obj
  | 0, _, _ => none
  | fuel + 1, e, scope =>
    match e with
    | .integerLiteral n => some (.integer n)
    | .stringLiteral s => some (.strVal s)
    | .booleanLit b => some (.boolean b)
    | .selfExpression => some scope.self
    | .callExpression receiverExp name argExps =>
      match evalExpr fuel receiverExp scope with
      | none => none
      | some receiver =>
        match evalArgs fuel argExps scope with
        | none => none
        | some args => sendMethodCall fuel receiver name args

/-- Eval from evaluator.go restricted to statement nodes: expression
statements pass through, return statements wrap non-error results in a
ReturnValue, blocks go to evalBlockStatements. -/
def evalStmt : Nat → Stmt → RScope → Option Obj
  | 0, _, _ => none
  | fuel + 1, s, scope =>
    match s with
    | .expressionStatement e => evalExpr fuel e scope
    | .returnStatement e =>
      match evalExpr fuel e scope with
      | none => none
      | some val => if isError val then some val else some (.returnValue val)
    | .blockStatement stmts => evalBlockStatements fuel stmts scope

/-- Modelled from the spec: evalBlockStatements is not under src/ (only its
caller Eval is). Per the spec's Program/Block rule it evaluates the statements
in sequence against the same scope and stops at the first Error or
ReturnSignal; the block hands that Value back unchanged, which is what lets a
return unwind to sendMethodCall's unwrapReturnValue. -/
def evalBlockStatements : Nat → List Stmt → RScope → Option Obj
  | 0, _, _ => none
  | _ + 1, [], _ => some .goNil
  | fuel + 1, s :: rest, scope =>
    match evalStmt fuel s scope with
    | none => none
    | some r =>
      match r with
      | .returnValue v => some (.returnValue v)
      | .errObj m => some (.errObj m)
      | r' => if rest.isEmpty then some r' else evalBlockStatements fuel rest scope

/-- evalArgs from evaluator.go: left-to-right; an error argument is appended
and then detected, making the whole argument list just that error. -/
def evalArgs : Nat → List Expr → RScope → Option (List Obj)
  | 0, _, _ => none
  | _ + 1, [], _ => some []
  | fuel + 1, e :: rest, scope =>
    match evalExpr fuel e scope with
    | none => none
    | some arg =>
      if isError arg then some [arg]
      else
        match evalArgs fuel rest scope with
        | none => none
        | some args => some (arg :: args)

/-- sendMethodCall from evaluator.go: class and instance receivers dispatch
and unwrap one ReturnValue; every other receiver is invalid. -/
def sendMethodCall : Nat → Obj → String → List Obj → Option Obj
  | 0, _, _, _ => none
  | fuel + 1, receiver, name, args =>
    match receiver with
    | .classObj cls =>
      match evalClassMethod fuel cls name args with
      | none => none
      | some evaluated => some (unwrapReturnValue evaluated)
    | .baseObject cls ivars =>
      match evalInstanceMethod fuel cls ivars name args with
      | none => none
      | some evaluated => some (unwrapReturnValue evaluated)
    | other => some (.errObj ("not a valid receiver: " ++ inspect other))

/-- The type switch at the end of evalClassMethod in evaluator.go, applied to
whatever the lookup (or the superclass recursion) left in the method variable.
The executing frame binds self to its own receiver class. -/
def classMethodSwitch : Nat → RClass → Obj → List Obj → Option Obj
  | 0, _, _, _ => none
  | fuel + 1, receiver, method, args =>
    match method with
    | .methodObj m =>
      if m.parameters.length ≠ args.length then
        some (.errObj ("wrong arguments: expect=" ++ toString m.parameters.length
          ++ ", got=" ++ toString args.length))
      else
        evalStmt fuel m.body (.mk (.classObj receiver) (extendMethodEnv m args))
    | .builtInMethod fn => some (applyBuiltin fn args)
    | _ => some (.errObj "unknown method type")

/-- evalClassMethod from evaluator.go. On a miss with a superclass the Go code
assigns the full recursive call's result — an evaluated value, not a method —
to the method variable and falls into the type switch. -/
def evalClassMethod : Nat → RClass → String → List Obj → Option Obj
  | 0, _, _, _ => none
  | fuel + 1, receiver, name, args =>
    match lookupTable receiver.classMethods name with
    | some m => classMethodSwitch fuel receiver m args
    | none =>
      match receiver.superClass with
      | none =>
        some (.errObj ("undefined method " ++ name ++ " for class "
          ++ inspect (.classObj receiver)))
      | some sup =>
        match evalClassMethod fuel sup name args with
        | none => none
        | some m => classMethodSwitch fuel receiver m args

/-- The superclass-chain search loop of evalInstanceMethod in evaluator.go:
some (some m) is a hit, some none is chain exhaustion (the loop ran off the
last superclass), none is fuel exhaustion. -/
def searchChain : Nat → RClass → String → Option (Option Obj)
  | 0, _, _ => none
  | fuel + 1, cls, name =>
    match lookupTable cls.instanceMethods name with
    | some m => some (some m)
    | none =>
      match cls.superClass with
      | none => some none
      | some sup => searchChain fuel sup name

/-- evalInstanceMethod from evaluator.go: chain search, then a type switch
whose only positive case is an interpreted Method (no BuiltInMethod case). -/
def evalInstanceMethod : Nat → RClass → List (String × Obj) → String → List Obj → Option Obj
  | 0, _, _, _, _ => none
  | fuel + 1, cls, ivars, name, args =>
    match searchChain fuel cls name with
    | none => none
    | some none =>
      some (.errObj ("undefined instance method " ++ name ++ " for class "
        ++ inspect (.classObj cls)))
    | some (some method) =>
      match method with
      | .methodObj m =>
        if m.parameters.length ≠ args.length then
          some (.errObj ("wrong arguments: expect=" ++ toString m.parameters.length
            ++ ", got=" ++ toString args.length))
        else
          evalStmt fuel m.body (.mk (.baseObject cls ivars) (extendMethodEnv m args))
      | _ => some (.errObj "unknown method type")

end

/-- evalProgram from evaluator.go: statements in sequence against the same
scope; a ReturnValue ends the run with its inner value, an Error ends it with
the error, otherwise the last statement's result is the program's result (Go
nil for an empty program). -/
def evalProgram (fuel : Nat) : List Stmt → RScope → Option Obj
  | [], _ => some .goNil
  | s :: rest, scope =>
    match evalStmt fuel s scope with
    | none => none
    | some r =>
      match r with
      | .returnValue v => some v
      | .errObj m => some (.errObj m)
      | r' => if rest.isEmpty then some r' else evalProgram fuel rest scope

/- Signal-freedom: a ReturnValue is a control-flow marker, produced only by a
   return statement and consumed by block/program/call boundaries; it is never
   stored in an environment, a method table, instance variables, or bound as
   self. The Ok predicates say a runtime structure contains no stored
   ReturnValue; the invariant below shows evaluation keeps it. -/

mutual

inductive OkObj : Obj → Prop where
  | integer (n : Int) : OkObj (.integer n)
  | strVal (s : String) : OkObj (.strVal s)
  | boolean (b : Bool) : OkObj (.boolean b)
  | null : OkObj .null
  | goNil : OkObj .goNil
  | errObj (m : String) : OkObj (.errObj m)
  | classObj {c : RClass} : OkClass c → OkObj (.classObj c)
  | baseObject {c : RClass} {ivars : List (String × Obj)} :
      OkClass c → (∀ p ∈ ivars, OkObj p.2) → OkObj (.baseObject c ivars)
  | methodObj {ps : List String} {b : Stmt} {sc : RScope} :
      OkScope sc → OkObj (.methodObj (.mk ps b sc))
  | builtInMethod (fn : BuiltinFn) : OkObj (.builtInMethod fn)

inductive OkClass : RClass → Prop where
  | mk {n : String} {sup : Option RClass} {cms ims : List (String × Obj)} :
      OkSuper sup → (∀ p ∈ cms, OkObj p.2) → (∀ p ∈ ims, OkObj p.2) →
      OkClass (.mk n sup cms ims)

inductive OkSuper : Option RClass → Prop where
  | none : OkSuper none
  | some {c : RClass} : OkClass c → OkSuper (some c)

inductive OkScope : RScope → Prop where
  | mk {s : Obj} {e : REnv} : OkObj s → OkEnv e → OkScope (.mk s e)

inductive OkEnv : REnv → Prop where
  | mk {store : List (String × Obj)} {outer : Option REnv} :
      (∀ p ∈ store, OkObj p.2) → OkOuter outer → OkEnv (.mk store outer)

inductive OkOuter : Option REnv → Prop where
  | none : OkOuter none
  | some {e : REnv} : OkEnv e → OkOuter (some e)

end

/-- A legal outcome of a statement-level evaluation: a stored-shape value, or
a ReturnValue wrapping one (a single level of signal). -/
def OkRes (r : Obj) : Prop :=
  OkObj r ∨ ∃ v, r = .returnValue v ∧ OkObj v

theorem okObj_not_returnValue {r : Obj} (h : OkObj r) : ∀ v, r ≠ .returnValue v := by
  intro v he
  subst he
  cases h

theorem okObj_okRes {r : Obj} (h : OkObj r) : OkRes r := Or.inl h

theorem unwrap_ok {r : Obj} (h : OkRes r) : OkObj (unwrapReturnValue r) := by
  rcases h with h | ⟨v, rfl, hv⟩
  · cases r <;> first
      | exact h
      | exact absurd rfl (okObj_not_returnValue h _)
  · exact hv

theorem lookupTable_ok {ps : List (String × Obj)} {key : String} {m : Obj}
    (hps : ∀ p ∈ ps, OkObj p.2) (h : lookupTable ps key = some m) : OkObj m := by
  induction ps with
  | nil => simp [lookupTable] at h
  | cons p rest ih =>
    obtain ⟨k, v⟩ := p
    simp only [lookupTable] at h
    split at h
    · cases h
      exact hps (k, m) (by simp)
    · exact ih (fun q hq => hps q (List.mem_cons_of_mem _ hq)) h

theorem okClass_classMethods {c : RClass} (h : OkClass c) :
    ∀ p ∈ c.classMethods, OkObj p.2 := by
  cases h with
  | mk hsup hcms hims => exact hcms

theorem okClass_instanceMethods {c : RClass} (h : OkClass c) :
    ∀ p ∈ c.instanceMethods, OkObj p.2 := by
  cases h with
  | mk hsup hcms hims => exact hims

theorem okClass_superClass {c s : RClass} (h : OkClass c)
    (hs : c.superClass = some s) : OkClass s := by
  cases h with
  | mk hsup hcms hims =>
    simp only [RClass.superClass] at hs
    subst hs
    cases hsup with
    | some hc => exact hc

theorem okObj_method_scope {m : RMethod} (h : OkObj (.methodObj m)) :
    OkScope m.scope := by
  cases h with
  | methodObj hsc => exact hsc

theorem setVar_ok {e : REnv} {n : String} {v : Obj} (he : OkEnv e) (hv : OkObj v) :
    OkEnv (e.setVar n v) := by
  cases he with
  | mk hstore houter =>
    refine OkEnv.mk (fun p hp => ?_) houter
    rcases List.mem_cons.mp hp with rfl | hp
    · exact hv
    · exact hstore p hp

theorem foldl_setVar_ok {l : List (String × Obj)} {e : REnv}
    (he : OkEnv e) (hl : ∀ pa ∈ l, OkObj pa.2) :
    OkEnv (l.foldl (fun e pa => e.setVar pa.1 pa.2) e) := by
  induction l generalizing e with
  | nil => exact he
  | cons pa rest ih =>
    exact ih (setVar_ok he (hl pa (by simp)))
      (fun q hq => hl q (List.mem_cons_of_mem _ hq))

theorem extendMethodEnv_ok {m : RMethod} {args : List Obj}
    (hm : OkObj (.methodObj m)) (hargs : ∀ a ∈ args, OkObj a) :
    OkEnv (extendMethodEnv m args) := by
  obtain ⟨ps, b, sc⟩ := m
  obtain ⟨s0, e0⟩ := sc
  have henv : OkEnv e0 := by
    have hsc := okObj_method_scope hm
    simp only [RMethod.scope] at hsc
    cases hsc with
    | mk hself he => exact he
  simp only [extendMethodEnv, RMethod.parameters, RMethod.scope, RScope.env]
  refine foldl_setVar_ok ?_ ?_
  · exact OkEnv.mk (by simp) (OkOuter.some henv)
  · intro pa hpa
    rcases pa with ⟨p, a⟩
    exact hargs a (List.of_mem_zip hpa).2

theorem applyBuiltin_ok {fn : BuiltinFn} {args : List Obj}
    (hargs : ∀ a ∈ args, OkObj a) : OkObj (applyBuiltin fn args) := by
  cases fn with
  | argCount => exact OkObj.integer _
  | firstArg =>
    cases args with
    | nil => exact OkObj.null
    | cons a rest => exact hargs a (by simp)

/-- The evaluation invariant: starting from signal-free scopes, receivers and
arguments, every evaluator entry point produces a signal-free value, except
that statement-level results may carry one ReturnValue layer (OkRes), which
the call boundary strips. Proved for all fuels by one simultaneous induction
over the mutually recursive evaluator. -/
theorem evalOk : ∀ fuel : Nat,
    (∀ e scope r, OkScope scope → evalExpr fuel e scope = some r → OkObj r) ∧
    (∀ s scope r, OkScope scope → evalStmt fuel s scope = some r → OkRes r) ∧
    (∀ l scope r, OkScope scope → evalBlockStatements fuel l scope = some r → OkRes r) ∧
    (∀ l scope as, OkScope scope → evalArgs fuel l scope = some as → ∀ a ∈ as, OkObj a) ∧
    (∀ recv name args r, OkObj recv → (∀ a ∈ args, OkObj a) →
        sendMethodCall fuel recv name args = some r → OkObj r) ∧
    (∀ c mo args r, OkClass c → OkRes mo → (∀ a ∈ args, OkObj a) →
        classMethodSwitch fuel c mo args = some r → OkRes r) ∧
    (∀ c name args r, OkClass c → (∀ a ∈ args, OkObj a) →
        evalClassMethod fuel c name args = some r → OkRes r) ∧
    (∀ c name mo, OkClass c → searchChain fuel c name = some (some mo) → OkObj mo) ∧
    (∀ c ivars name args r, OkClass c → (∀ p ∈ ivars, OkObj p.2) → (∀ a ∈ args, OkObj a) →
        evalInstanceMethod fuel c ivars name args = some r → OkRes r) := by
  intro fuel
  induction fuel with
  | zero =>
    refine ⟨?_, ?_, ?_, ?_, ?_, ?_, ?_, ?_, ?_⟩ <;> intros <;>
      simp_all [evalExpr, evalStmt, evalBlockStatements, evalArgs, sendMethodCall,
        classMethodSwitch, evalClassMethod, searchChain, evalInstanceMethod]
  | succ fuel ih =>
    obtain ⟨ihE, ihS, ihB, ihA, ihSend, ihSwitch, ihCM, ihSearch, ihIM⟩ := ih
    refine ⟨?_, ?_, ?_, ?_, ?_, ?_, ?_, ?_, ?_⟩
    · -- evalExpr
      intro e scope r hsc h
      cases e with
      | integerLiteral n =>
        simp only [evalExpr] at h
        cases h
        exact OkObj.integer n
      | stringLiteral s =>
        simp only [evalExpr] at h
        cases h
        exact OkObj.strVal s
      | booleanLit b =>
        simp only [evalExpr] at h
        cases h
        exact OkObj.boolean b
      | selfExpression =>
        simp only [evalExpr] at h
        cases h
        obtain ⟨s0, e0⟩ := scope
        cases hsc with
        | mk hself henv => exact hself
      | callExpression rexp name argExps =>
        simp only [evalExpr] at h
        split at h
        · exact absurd h (by simp)
        · rename_i receiver hrecv
          split at h
          · exact absurd h (by simp)
          · rename_i args hargs
            exact ihSend receiver name args r (ihE _ _ _ hsc hrecv)
              (ihA _ _ _ hsc hargs) h
    · -- evalStmt
      intro s scope r hsc h
      cases s with
      | expressionStatement e =>
        simp only [evalStmt] at h
        exact okObj_okRes (ihE _ _ _ hsc h)
      | returnStatement e =>
        simp only [evalStmt] at h
        split at h
        · exact absurd h (by simp)
        · rename_i val hval
          have hok := ihE _ _ _ hsc hval
          split at h
          · cases h
            exact okObj_okRes hok
          · cases h
            exact Or.inr ⟨val, rfl, hok⟩
      | blockStatement stmts =>
        simp only [evalStmt] at h
        exact ihB _ _ _ hsc h
    · -- evalBlockStatements
      intro l scope r hsc h
      cases l with
      | nil =>
        simp only [evalBlockStatements] at h
        cases h
        exact okObj_okRes OkObj.goNil
      | cons s rest =>
        simp only [evalBlockStatements] at h
        split at h
        · exact absurd h (by simp)
        · rename_i r0 hr0
          have hres := ihS _ _ _ hsc hr0
          split at h
          · cases h
            exact hres
          · cases h
            exact hres
          · split at h
            · cases h
              exact hres
            · exact ihB _ _ _ hsc h
    · -- evalArgs
      intro l scope as hsc h
      cases l with
      | nil =>
        simp only [evalArgs] at h
        cases h
        simp
      | cons e rest =>
        simp only [evalArgs] at h
        split at h
        · exact absurd h (by simp)
        · rename_i arg harg
          have hok := ihE _ _ _ hsc harg
          split at h
          · cases h
            intro a ha
            rcases List.mem_singleton.mp ha with rfl
            exact hok
          · split at h
            · exact absurd h (by simp)
            · rename_i args0 hargs0
              cases h
              intro a ha
              rcases List.mem_cons.mp ha with rfl | ha
              · exact hok
              · exact ihA _ _ _ hsc hargs0 a ha
    · -- sendMethodCall
      intro recv name args r hrecv hargs h
      simp only [sendMethodCall] at h
      split at h
      · rename_i cls
        split at h
        · exact absurd h (by simp)
        · rename_i evaluated heval
          cases h
          have hcls : OkClass cls := by
            cases hrecv with
            | classObj hc => exact hc
          exact unwrap_ok (ihCM _ _ _ _ hcls hargs heval)
      · rename_i cls ivars
        split at h
        · exact absurd h (by simp)
        · rename_i evaluated heval
          cases h
          have hinv : OkClass cls ∧ ∀ p ∈ ivars, OkObj p.2 := by
            cases hrecv with
            | baseObject hc hiv => exact ⟨hc, hiv⟩
          exact unwrap_ok (ihIM _ _ _ _ _ hinv.1 hinv.2 hargs heval)
      · cases h
        exact OkObj.errObj _
    · -- classMethodSwitch
      intro c mo args r hc hmo hargs h
      simp only [classMethodSwitch] at h
      split at h
      · rename_i m
        have hm : OkObj (.methodObj m) := by
          rcases hmo with hmo | ⟨v, hv, _⟩
          · exact hmo
          · cases hv
        split at h
        · cases h
          exact okObj_okRes (OkObj.errObj _)
        · refine ihS _ _ _ ?_ h
          exact OkScope.mk (OkObj.classObj hc) (extendMethodEnv_ok hm hargs)
      · cases h
        exact okObj_okRes (applyBuiltin_ok hargs)
      · cases h
        exact okObj_okRes (OkObj.errObj _)
    · -- evalClassMethod
      intro c name args r hc hargs h
      simp only [evalClassMethod] at h
      split at h
      · rename_i m hm
        exact ihSwitch _ _ _ _ hc
          (okObj_okRes (lookupTable_ok (okClass_classMethods hc) hm)) hargs h
      · split at h
        · cases h
          exact okObj_okRes (OkObj.errObj _)
        · rename_i sup hsup
          split at h
          · exact absurd h (by simp)
          · rename_i m' hm'
            have hsupOk : OkClass sup := okClass_superClass hc hsup
            exact ihSwitch _ _ _ _ hc (ihCM _ _ _ _ hsupOk hargs hm') hargs h
    · -- searchChain
      intro c name mo hc h
      simp only [searchChain] at h
      split at h
      · rename_i m hm
        cases h
        exact lookupTable_ok (okClass_instanceMethods hc) hm
      · split at h
        · exact absurd h (by simp)
        · rename_i sup hsup
          exact ihSearch _ _ _ (okClass_superClass hc hsup) h
    · -- evalInstanceMethod
      intro c ivars name args r hc hiv hargs h
      simp only [evalInstanceMethod] at h
      split at h
      · exact absurd h (by simp)
      · cases h
        exact okObj_okRes (OkObj.errObj _)
      · rename_i method hfound
        have hm := ihSearch _ _ _ hc hfound
        split at h
        · rename_i m
          split at h
          · cases h
            exact okObj_okRes (OkObj.errObj _)
          · refine ihS _ _ _ ?_ h
            exact OkScope.mk (OkObj.baseObject hc hiv) (extendMethodEnv_ok hm hargs)
        · cases h
          exact okObj_okRes (OkObj.errObj _)

end Rooby

namespace GobyArray

/- The built-in array type of the goby vm. Its implementation is not under
   src/ — only its test suite is — so the operations below are modelled from
   the spec (§4.4), with the error-message renderings pinned by the in-src
   tests (TestArrayConcatMethodFail, TestArrayShiftMethodFail). -/

inductive GValue where
  | integer (n : Int)
  | strVal (s : String)
  | boolean (b : Bool)
  | null
  | array (elements : List GValue)
  | errObj (message : String)

/-- The Go dynamic type name of a value, as %T renders it in the vm package;
the renderings asserted by claims are the ones the in-src tests pin. -/
def goTypeString : GValue → String
  | .integer _ => "*vm.IntegerObject"
  | .strVal _ => "*vm.StringObject"
  | .boolean _ => "*vm.BooleanObject"
  | .null => "*vm.NullObject"
  | .array _ => "*vm.ArrayObject"
  | .errObj _ => "*vm.Error"

def isArrayG : GValue → Bool
  | .array _ => true
  | _ => false

/-- Modelled from the spec: the `a[i]` read rule of §4.4 — in-range
non-negative indices read the element, in-range negative indices read from
the end, everything else reads Null; a read returns the receiver unchanged.
Result is (value, receiver-after). -/
def arrayIndex (elements : List GValue) (i : Int) : GValue × List GValue :=
  if 0 ≤ i ∧ i < (elements.length : Int) then
    (elements.getD i.toNat .null, elements)
  else if -(elements.length : Int) ≤ i ∧ i < 0 then
    (elements.getD ((elements.length : Int) + i).toNat .null, elements)
  else
    (.null, elements)

/-- Modelled from the spec: `at(i)` obeys the same read rule as `[]`;
rendered independently through an explicitly normalized index so that the
agreement of the two access paths is a theorem rather than a definition. -/
def normalizeIndex (len : Nat) (i : Int) : Option Nat :=
  if i < -(len : Int) ∨ (len : Int) ≤ i then none
  else if i < 0 then some ((len : Int) + i).toNat
  else some i.toNat

/-- Modelled from the spec: the `at` built-in method's read. -/
def arrayAt (elements : List GValue) (i : Int) : GValue × List GValue :=
  match normalizeIndex elements.length i with
  | some j => (elements.getD j .null, elements)
  | none => (.null, elements)

/-- Modelled from the spec: the `a[i] = v` write rule of §4.4 — writing at
or past the end extends the array with Null up to index i (sparse fill),
in-range indices (negative ones counted from the end) overwrite in place,
and a negative index below -len is a reported error with the receiver left
unchanged. Result is (value, receiver-after). -/
def arrayIndexSet (elements : List GValue) (i : Int) (v : GValue) : GValue × List GValue :=
  if (elements.length : Int) ≤ i then
    (v, elements ++ List.replicate (i.toNat - elements.length) .null ++ [v])
  else if 0 ≤ i then
    (v, elements.set i.toNat v)
  else if -(elements.length : Int) ≤ i then
    (v, elements.set ((elements.length : Int) + i).toNat v)
  else
    (.errObj ("Index value out of range. got=" ++ toString i), elements)

/-- Modelled from the spec: `concat(a1, a2, …)` appends all elements of each
argument array in order (zero arguments is a no-op returning the receiver);
an argument that is not an Array reports the wrong-argument-type error the
in-src test TestArrayConcatMethodFail pins. -/
def arrayConcat : List GValue → List GValue → GValue × List GValue
  | elements, [] => (.array elements, elements)
  | elements, .array xs :: rest => arrayConcat (elements ++ xs) rest
  | elements, x :: _ =>
    (.errObj ("Expect argument to be Array. got=" ++ goTypeString x), elements)

/-- Modelled from the spec: `shift` takes no arguments and removes and
returns the first element (Null when empty); any arguments report the
fixed-arity error the in-src test TestArrayShiftMethodFail pins, with the
receiver unchanged. -/
def arrayShift : List GValue → List GValue → GValue × List GValue
  | [], [] => (.null, [])
  | x :: rest, [] => (x, rest)
  | elements, a :: as =>
    (.errObj ("Expect 0 argument. got=" ++ toString ((a :: as).length)), elements)

end GobyArray

namespace Rooby

/- Concrete fixtures used to exercise the dispatch paths. -/

def emptyEnv : REnv := .mk [] none

def topScope : RScope := .mk .goNil emptyEnv

/-- Body of a zero-parameter method that evaluates to Integer 5. -/
def fooBody : Stmt := .blockStatement [.expressionStatement (.integerLiteral 5)]

/-- Superclass A holding class method foo. -/
def parentClass : RClass :=
  .mk "A" none [("foo", .methodObj (.mk [] fooBody topScope))] []

/-- Subclass B of A with no own class methods. -/
def childClass : RClass := .mk "B" (some parentClass) [] []

/-- Body of a method that evaluates to Integer 42. -/
def answerBody : Stmt := .blockStatement [.expressionStatement (.integerLiteral 42)]

/-- A class whose class method m takes one parameter. -/
def oneParamClass : RClass :=
  .mk "C" none [("m", .methodObj (.mk ["x"] answerBody topScope))] []

/-- A scope whose self is oneParamClass, so a call on self dispatches to it. -/
def oneParamScope : RScope := .mk (.classObj oneParamClass) emptyEnv

/-- An argument expression whose evaluation produces an Error: a call on the
integer literal 1, which is not a valid receiver. -/
def errArgExp : Expr := .callExpression (.integerLiteral 1) "foo" []

/-- A class carrying a BuiltInMethod under b in both method tables. -/
def builtinClass : RClass :=
  .mk "BI" none [("b", .builtInMethod .argCount)] [("b", .builtInMethod .argCount)]

/-- A class whose instance method m takes one parameter. -/
def instMethodClass : RClass :=
  .mk "D" none [] [("m", .methodObj (.mk ["x"] answerBody topScope))]

/-- Body of a zero-parameter method whose block ends in return 7. -/
def returnBody : Stmt := .blockStatement [.returnStatement (.integerLiteral 7)]

/-- A class whose class method m returns 7 via a return statement. -/
def returnClass : RClass :=
  .mk "W" none [("m", .methodObj (.mk [] returnBody topScope))] []

/-- A subclass of oneParamClass with no own class methods: its class method m
(one parameter, body 42) is inherited. -/
def arityChild : RClass := .mk "C2" (some oneParamClass) [] []

/-- A subclass of returnClass with no own class methods: its class method m
(return 7) is inherited. -/
def returnChild : RClass := .mk "W2" (some returnClass) [] []

/-- unwrapReturnValue is the identity on anything that is not a ReturnValue. -/
theorem unwrap_eq_self {r : Obj} (h : ∀ v, r ≠ .returnValue v) :
    unwrapReturnValue r = r := by
  cases r <;> first
    | rfl
    | exact absurd rfl (h _)

/-- A nonempty prefix makes a string differ from its unprefixed form. -/
theorem prepend_ne {p m : String} (hp : p.length ≠ 0) : p ++ m ≠ m := by
  intro h
  have hlen := congrArg String.length h
  rw [String.length_append] at hlen
  omega

/-- On a class-method miss with a superclass present, evalClassMethod
forwards the full recursion's result into the type switch — the shape behind
the C1 slip, isolated here as an equation. -/
theorem evalClassMethod_miss {fuel : Nat} {c sup : RClass} {name : String}
    {args : List Obj} (h1 : lookupTable c.classMethods name = none)
    (h2 : c.superClass = some sup) :
    evalClassMethod (fuel + 1) c name args =
      match evalClassMethod fuel sup name args with
      | none => none
      | some m => classMethodSwitch fuel c m args := by
  have e1 : evalClassMethod (fuel + 1) c name args =
      (match lookupTable c.classMethods name with
       | some m => classMethodSwitch fuel c m args
       | none =>
         match c.superClass with
         | none => some (.errObj ("undefined method " ++ name ++ " for class "
             ++ inspect (.classObj c)))
         | some sup2 =>
           match evalClassMethod fuel sup2 name args with
           | none => none
           | some m => classMethodSwitch fuel c m args) := rfl
  rw [e1, h1, h2]

/-- Claim C1 (code bug): the spec says class-method dispatch searches the
superclass chain and invokes the first Method found, erring only when the
chain is exhausted. In evalClassMethod the superclass recursion's evaluated
result is assigned to the method variable and fed into the method-type
switch, so an inherited class method's result (Integer 5, produced by the
inner frame) is discarded in favour of Error("unknown method type"), and a
full-chain miss below a superclass is likewise mangled; only a class with no
superclass reports the undefined-method error. -/
theorem C1_inherited_class_method_bug :
    evalClassMethod 20 childClass "foo" [] = some (.errObj "unknown method type")
  ∧ evalClassMethod 20 parentClass "foo" [] = some (.integer 5)
  ∧ evalClassMethod 20 childClass "nope" [] = some (.errObj "unknown method type")
  ∧ evalClassMethod 20 parentClass "nope" [] =
      some (.errObj "undefined method nope for class A") :=
  ⟨rfl, rfl, rfl, rfl⟩

/-- Claim C2 (code bug): the spec says an argument-evaluation Error becomes
the call's result and the call is never issued. The CallExpression case of
Eval never inspects evalArgs's result: the single-error argument list is
handed to sendMethodCall, the one-parameter method m is dispatched with the
Error bound to its parameter, and the body's 42 replaces the Error. -/
theorem C2_dispatch_entered_despite_arg_error :
    evalExpr 20 errArgExp oneParamScope = some (.errObj "not a valid receiver: 1")
  ∧ evalArgs 20 [errArgExp] oneParamScope = some [.errObj "not a valid receiver: 1"]
  ∧ evalExpr 20 (.callExpression .selfExpression "m" [errArgExp]) oneParamScope =
      some (.integer 42) :=
  ⟨rfl, rfl, rfl⟩

/-- Claim C3 counterexample: an Instance receiver whose method lookup
resolves to a BuiltInMethod does not get the native function invoked (which
would give Integer 0 here): evalInstanceMethod's type switch has no
BuiltInMethod case and falls to Error("unknown method type"). -/
theorem C3_counterexample :
    sendMethodCall 20 (.baseObject builtinClass []) "b" [] =
      some (.errObj "unknown method type")
  ∧ evalInstanceMethod 20 builtinClass [] "b" [] = some (.errObj "unknown method type")
  ∧ applyBuiltin .argCount [] = .integer 0
  ∧ sendMethodCall 20 (.baseObject builtinClass []) "b" [] ≠ some (.integer 0) := by
  refine ⟨rfl, rfl, rfl, ?_⟩
  intro h
  rw [show sendMethodCall 20 (.baseObject builtinClass []) "b" [] =
    some (.errObj "unknown method type") from rfl] at h
  simp at h

/-- Claim C3 (amended): a Class receiver whose own class-method table maps
the name to a BuiltInMethod gets the native function invoked directly with
the evaluated arguments, with no arity pre-check by the dispatcher; an
Instance receiver whose chain lookup resolves to a BuiltInMethod instead
yields Error("unknown method type") without invoking the native function. -/
theorem C3_builtin_dispatch :
    (∀ fuel c name args fn,
        lookupTable c.classMethods name = some (.builtInMethod fn) →
        evalClassMethod (fuel + 2) c name args = some (applyBuiltin fn args))
  ∧ (∀ fuel c ivars name args fn,
        searchChain fuel c name = some (some (.builtInMethod fn)) →
        evalInstanceMethod (fuel + 1) c ivars name args =
          some (.errObj "unknown method type")) := by
  constructor
  · intro fuel c name args fn h
    simp [evalClassMethod, classMethodSwitch, h]
  · intro fuel c ivars name args fn h
    simp [evalInstanceMethod, h]

/-- Claim C3 witness: the amended theorem applied at builtinClass — the
class-side builtin runs on three arguments with no arity check, the
instance-side lookup of the same builtin produces the unknown-method-type
error. -/
theorem C3_builtin_dispatch_witness :
    evalClassMethod 2 builtinClass "b" [.null, .null, .null] =
      some (applyBuiltin .argCount [.null, .null, .null])
  ∧ evalInstanceMethod 2 builtinClass [] "b" [] =
      some (.errObj "unknown method type") :=
  ⟨C3_builtin_dispatch.1 0 builtinClass "b" [.null, .null, .null] .argCount rfl,
   C3_builtin_dispatch.2 1 builtinClass [] "b" [] .argCount rfl⟩

/-- Claim C4 counterexample: dispatching m with zero arguments on a subclass
whose superclass holds the one-parameter method m does find that Method (the
inner frame reports the arity error), yet the dispatch result is
Error("unknown method type"), not the wrong-arguments error the claim
states. -/
theorem C4_counterexample :
    evalClassMethod 20 oneParamClass "m" [] =
      some (.errObj "wrong arguments: expect=1, got=0")
  ∧ evalClassMethod 20 arityChild "m" [] = some (.errObj "unknown method type")
  ∧ sendMethodCall 21 (.classObj arityChild) "m" [] =
      some (.errObj "unknown method type")
  ∧ some (Obj.errObj "unknown method type") ≠
      some (Obj.errObj "wrong arguments: expect=1, got=0") :=
  ⟨rfl, rfl, rfl, by simp⟩

/-- Claim C4 (amended): whenever dispatch finds an interpreted Method — in
the receiver's own class-method table, or anywhere along the instance-method
chain — and the argument count differs from the parameter count, that
frame's result is the wrong-arguments error, and the method body (here
universally quantified: the result is the same for every body) is never
evaluated; but for a class method found on a superclass, the outer
evalClassMethod frames feed the inner frame's error into the method-type
switch, so the dispatch boundary reports Error("unknown method type")
instead (the body is still never evaluated). -/
theorem C4_arity_mismatch :
    (∀ fuel c name args m,
        lookupTable c.classMethods name = some (.methodObj m) →
        m.parameters.length ≠ args.length →
        evalClassMethod (fuel + 2) c name args =
          some (.errObj ("wrong arguments: expect=" ++ toString m.parameters.length
            ++ ", got=" ++ toString args.length)))
  ∧ (∀ fuel c ivars name args m,
        searchChain fuel c name = some (some (.methodObj m)) →
        m.parameters.length ≠ args.length →
        evalInstanceMethod (fuel + 1) c ivars name args =
          some (.errObj ("wrong arguments: expect=" ++ toString m.parameters.length
            ++ ", got=" ++ toString args.length)))
  ∧ (∀ fuel c sup name args msg,
        lookupTable c.classMethods name = none →
        c.superClass = some sup →
        evalClassMethod (fuel + 1) sup name args = some (.errObj msg) →
        evalClassMethod (fuel + 2) c name args =
          some (.errObj "unknown method type")) := by
  refine ⟨?_, ?_, ?_⟩
  · intro fuel c name args m h hne
    simp [evalClassMethod, classMethodSwitch, h, hne]
  · intro fuel c ivars name args m h hne
    simp [evalInstanceMethod, h, hne]
  · intro fuel c sup name args msg h1 h2 h3
    show evalClassMethod (fuel + 1 + 1) c name args =
      some (.errObj "unknown method type")
    rw [evalClassMethod_miss h1 h2, h3]
    rfl

/-- Claim C4 witness: a one-parameter class method and a one-parameter
instance method called with zero arguments both report the arity error at
the frame that finds them, and the same call on a subclass inheriting the
class method surfaces as the unknown-method-type error. -/
theorem C4_arity_mismatch_witness :
    evalClassMethod 2 oneParamClass "m" [] =
      some (.errObj "wrong arguments: expect=1, got=0")
  ∧ evalInstanceMethod 2 instMethodClass [] "m" [] =
      some (.errObj "wrong arguments: expect=1, got=0")
  ∧ evalClassMethod 3 arityChild "m" [] = some (.errObj "unknown method type") :=
  ⟨C4_arity_mismatch.1 0 oneParamClass "m" [] (.mk ["x"] answerBody topScope)
      rfl (by decide),
   C4_arity_mismatch.2.1 1 instMethodClass [] "m" [] (.mk ["x"] answerBody topScope)
      rfl (by decide),
   C4_arity_mismatch.2.2 1 arityChild oneParamClass "m" []
      "wrong arguments: expect=1, got=0" rfl rfl rfl⟩

/-- Claim C5 counterexample: an inherited class method whose body yields the
ReturnSignal wrapping 7 (and one whose body yields the plain 42) does not
have that value returned to the call site — sendMethodCall on the subclass
yields Error("unknown method type"): the outer evalClassMethod frame feeds
the inner frame's completed result into the method-type switch. -/
theorem C5_counterexample :
    evalClassMethod 19 returnClass "m" [] = some (.returnValue (.integer 7))
  ∧ sendMethodCall 20 (.classObj returnChild) "m" [] =
      some (.errObj "unknown method type")
  ∧ some (Obj.errObj "unknown method type") ≠ some (Obj.integer 7)
  ∧ evalClassMethod 19 oneParamClass "m" [.null] = some (.integer 42)
  ∧ sendMethodCall 20 (.classObj arityChild) "m" [.null] =
      some (.errObj "unknown method type") :=
  ⟨rfl, rfl, by simp, rfl, rfl⟩

/-- Claim C5 (amended): at the frame that invokes the method — a class
method found in the receiver's own class-method table, or an instance method
found along the chain — a body evaluation yielding a ReturnSignal reaches
the call site as exactly its inner Value, and any other body result passes
through unchanged; for a class method inherited from a superclass, however,
the outer evalClassMethod frames feed the inner frame's completed result
into the method-type switch, so the call site receives Error("unknown method
type") instead of the body's value; in all cases (for signal-free receivers
and arguments) a ReturnSignal itself is never visible outside the
method-call boundary. -/
theorem C5_return_unwrapped :
    (∀ fuel c name args m v,
        lookupTable c.classMethods name = some (.methodObj m) →
        m.parameters.length = args.length →
        evalStmt fuel m.body (.mk (.classObj c) (extendMethodEnv m args)) =
          some (.returnValue v) →
        sendMethodCall (fuel + 3) (.classObj c) name args = some v)
  ∧ (∀ fuel c name args m r,
        lookupTable c.classMethods name = some (.methodObj m) →
        m.parameters.length = args.length →
        evalStmt fuel m.body (.mk (.classObj c) (extendMethodEnv m args)) = some r →
        (∀ v, r ≠ .returnValue v) →
        sendMethodCall (fuel + 3) (.classObj c) name args = some r)
  ∧ (∀ fuel c ivars name args m v,
        searchChain fuel c name = some (some (.methodObj m)) →
        m.parameters.length = args.length →
        evalStmt fuel m.body (.mk (.baseObject c ivars) (extendMethodEnv m args)) =
          some (.returnValue v) →
        sendMethodCall (fuel + 2) (.baseObject c ivars) name args = some v)
  ∧ (∀ fuel c ivars name args m r,
        searchChain fuel c name = some (some (.methodObj m)) →
        m.parameters.length = args.length →
        evalStmt fuel m.body (.mk (.baseObject c ivars) (extendMethodEnv m args)) =
          some r →
        (∀ v, r ≠ .returnValue v) →
        sendMethodCall (fuel + 2) (.baseObject c ivars) name args = some r)
  ∧ (∀ fuel c sup name args r,
        lookupTable c.classMethods name = none →
        c.superClass = some sup →
        evalClassMethod (fuel + 1) sup name args = some r →
        (∀ m, r ≠ .methodObj m) → (∀ fn, r ≠ .builtInMethod fn) →
        evalClassMethod (fuel + 2) c name args =
          some (.errObj "unknown method type"))
  ∧ (∀ fuel recv name args r, OkObj recv → (∀ a ∈ args, OkObj a) →
        sendMethodCall fuel recv name args = some r → ∀ v, r ≠ .returnValue v) := by
  refine ⟨?_, ?_, ?_, ?_, ?_, ?_⟩
  · intro fuel c name args m v h1 hc hbody
    simp [sendMethodCall, evalClassMethod, classMethodSwitch, h1, hc, hbody,
      unwrapReturnValue]
  · intro fuel c name args m r h1 hc hbody hnr
    simp only [sendMethodCall, evalClassMethod, classMethodSwitch, h1, hc,
      ne_eq, not_true_eq_false, if_false, hbody]
    rw [unwrap_eq_self hnr]
  · intro fuel c ivars name args m v h1 hc hbody
    simp [sendMethodCall, evalInstanceMethod, h1, hc, hbody, unwrapReturnValue]
  · intro fuel c ivars name args m r h1 hc hbody hnr
    simp only [sendMethodCall, evalInstanceMethod, h1, hc, ne_eq,
      not_true_eq_false, if_false, hbody]
    rw [unwrap_eq_self hnr]
  · intro fuel c sup name args r h1 h2 h3 hm hf
    show evalClassMethod (fuel + 1 + 1) c name args =
      some (.errObj "unknown method type")
    rw [evalClassMethod_miss h1 h2, h3]
    show classMethodSwitch (fuel + 1) c r args =
      some (.errObj "unknown method type")
    cases r <;> first
      | exact absurd rfl (hm _)
      | exact absurd rfl (hf _)
      | rfl
  · intro fuel recv name args r hrecv hargs h
    exact okObj_not_returnValue ((evalOk fuel).2.2.2.2.1 recv name args r hrecv hargs h)

/-- Claim C5 witness: the amended rules at concrete inputs — a directly-found
class method whose body yields ReturnSignal(7) gives 7 at the call site, a
directly-found class method and an instance method whose bodies yield plain
42 give 42, the inherited return-7 method surfaces as the unknown-method-type
error, and the result of a call on a plain integer receiver is not a
ReturnSignal. -/
theorem C5_return_unwrapped_witness :
    sendMethodCall 20 (.classObj returnClass) "m" [] = some (.integer 7)
  ∧ sendMethodCall 20 (.classObj oneParamClass) "m" [.null] = some (.integer 42)
  ∧ sendMethodCall 19 (.baseObject instMethodClass []) "m" [.null] =
      some (.integer 42)
  ∧ evalClassMethod 19 returnChild "m" [] = some (.errObj "unknown method type")
  ∧ Obj.errObj "not a valid receiver: 1" ≠ Obj.returnValue .null :=
  ⟨C5_return_unwrapped.1 17 returnClass "m" [] (.mk [] returnBody topScope)
      (.integer 7) rfl rfl rfl,
   C5_return_unwrapped.2.1 17 oneParamClass "m" [.null]
      (.mk ["x"] answerBody topScope) (.integer 42) rfl rfl rfl (by simp),
   C5_return_unwrapped.2.2.2.1 17 instMethodClass [] "m" [.null]
      (.mk ["x"] answerBody topScope) (.integer 42) rfl rfl rfl (by simp),
   C5_return_unwrapped.2.2.2.2.1 17 returnChild returnClass "m" []
      (.returnValue (.integer 7)) rfl rfl rfl (by simp) (by simp),
   C5_return_unwrapped.2.2.2.2.2 10 (.integer 1) "m" []
      (.errObj "not a valid receiver: 1") (OkObj.integer 1) (by simp) rfl .null⟩

/-- Claim C6 counterexample: in a program whose first statement yields the
ReturnSignal wrapping 5, the sequence's result is the unwrapped Integer 5,
not the yielded ReturnSignal itself as the claim states. -/
theorem C6_counterexample :
    evalStmt 19 (.returnStatement (.integerLiteral 5)) topScope =
      some (.returnValue (.integer 5))
  ∧ evalProgram 19 [.returnStatement (.integerLiteral 5),
      .expressionStatement (.integerLiteral 7)] topScope = some (.integer 5)
  ∧ some (Obj.integer 5) ≠ some (Obj.returnValue (.integer 5)) :=
  ⟨rfl, rfl, by simp⟩

/-- Claim C6 (amended): statement sequences evaluate in order against the
same scope and stop at the first statement yielding an Error or a
ReturnSignal; an Error is returned unchanged by both forms, a block returns
the ReturnSignal itself, while a program returns the ReturnSignal's inner
Value; a non-signal non-final result is discarded and evaluation continues
with the same scope. -/
theorem C6_sequence_early_exit :
    (∀ fuel s rest scope v, evalStmt fuel s scope = some (.returnValue v) →
        evalProgram fuel (s :: rest) scope = some v)
  ∧ (∀ fuel s rest scope m, evalStmt fuel s scope = some (.errObj m) →
        evalProgram fuel (s :: rest) scope = some (.errObj m))
  ∧ (∀ fuel s rest scope v, evalStmt fuel s scope = some (.returnValue v) →
        evalBlockStatements (fuel + 1) (s :: rest) scope = some (.returnValue v))
  ∧ (∀ fuel s rest scope m, evalStmt fuel s scope = some (.errObj m) →
        evalBlockStatements (fuel + 1) (s :: rest) scope = some (.errObj m))
  ∧ (∀ fuel s rest scope r, evalStmt fuel s scope = some r →
        (∀ v, r ≠ .returnValue v) → (∀ m, r ≠ .errObj m) → rest ≠ [] →
        evalProgram fuel (s :: rest) scope = evalProgram fuel rest scope)
  ∧ (∀ fuel s scope r, evalStmt fuel s scope = some r →
        (∀ v, r ≠ .returnValue v) → (∀ m, r ≠ .errObj m) →
        evalProgram fuel [s] scope = some r) := by
  refine ⟨?_, ?_, ?_, ?_, ?_, ?_⟩
  · intro fuel s rest scope v h
    simp [evalProgram, h]
  · intro fuel s rest scope m h
    simp [evalProgram, h]
  · intro fuel s rest scope v h
    simp [evalBlockStatements, h]
  · intro fuel s rest scope m h
    simp [evalBlockStatements, h]
  · intro fuel s rest scope r h hnr hne hrest
    cases rest with
    | nil => exact absurd rfl hrest
    | cons s2 rs =>
      simp only [evalProgram, h]
      cases r <;> first
        | exact absurd rfl (hnr _)
        | exact absurd rfl (hne _)
        | simp [List.isEmpty]
  · intro fuel s scope r h hnr hne
    simp only [evalProgram, h]
    cases r <;> first
      | exact absurd rfl (hnr _)
      | exact absurd rfl (hne _)
      | simp [List.isEmpty]

/-- Claim C6 witness: the amended sequence rules applied to concrete
programs — return 5 then 7 gives 5 at program level and the ReturnSignal at
block level, and a non-signal first statement continues with the same
scope. -/
theorem C6_sequence_early_exit_witness :
    evalProgram 19 [.returnStatement (.integerLiteral 5),
      .expressionStatement (.integerLiteral 7)] topScope = some (.integer 5)
  ∧ evalBlockStatements 20 [.returnStatement (.integerLiteral 5),
      .expressionStatement (.integerLiteral 7)] topScope =
      some (.returnValue (.integer 5))
  ∧ evalProgram 19 [.expressionStatement (.integerLiteral 1),
      .expressionStatement (.integerLiteral 7)] topScope =
      evalProgram 19 [.expressionStatement (.integerLiteral 7)] topScope :=
  ⟨C6_sequence_early_exit.1 19 _ _ _ (.integer 5) rfl,
   C6_sequence_early_exit.2.2.1 19 _ _ _ (.integer 5) rfl,
   C6_sequence_early_exit.2.2.2.2.1 19 _ _ _ (.integer 1) rfl
      (by simp) (by simp) (by simp)⟩

/-- Claim C10: a call whose receiver expression evaluates to an Error does
not propagate that Error: the argument expressions are still evaluated (the
call's result is sendMethodCall applied to the evaluated argument list), and
dispatch, seeing a receiver that is neither Class nor Instance, produces the
fresh Error "not a valid receiver: <receiver>", which differs from the
original Error. -/
theorem C10_error_receiver :
    (∀ fuel rexp name argExps scope m args,
        evalExpr fuel rexp scope = some (.errObj m) →
        evalArgs fuel argExps scope = some args →
        evalExpr (fuel + 1) (.callExpression rexp name argExps) scope =
          some (.errObj ("not a valid receiver: " ++ m)))
  ∧ (∀ fuel name args m, sendMethodCall (fuel + 1) (.errObj m) name args =
        some (.errObj ("not a valid receiver: " ++ m)))
  ∧ (∀ fuel rexp name argExps scope m args,
        evalExpr fuel rexp scope = some (.errObj m) →
        evalArgs fuel argExps scope = some args →
        evalExpr (fuel + 1) (.callExpression rexp name argExps) scope ≠
          some (.errObj m)) := by
  have hsend : ∀ fuel name args m, sendMethodCall (fuel + 1) (.errObj m) name args =
      some (.errObj ("not a valid receiver: " ++ m)) := by
    intro fuel name args m
    simp [sendMethodCall, inspect]
  have hcall : ∀ fuel rexp name argExps scope m args,
      evalExpr fuel rexp scope = some (.errObj m) →
      evalArgs fuel argExps scope = some args →
      evalExpr (fuel + 1) (.callExpression rexp name argExps) scope =
        some (.errObj ("not a valid receiver: " ++ m)) := by
    intro fuel rexp name argExps scope m args h1 h2
    cases fuel with
    | zero => simp [evalExpr] at h1
    | succ g =>
      calc evalExpr (g + 1 + 1) (.callExpression rexp name argExps) scope
          = (match evalExpr (g + 1) rexp scope with
             | none => none
             | some receiver =>
               match evalArgs (g + 1) argExps scope with
               | none => none
               | some args2 => sendMethodCall (g + 1) receiver name args2) := rfl
        _ = sendMethodCall (g + 1) (.errObj m) name args := by rw [h1, h2]
        _ = some (.errObj ("not a valid receiver: " ++ m)) := hsend g name args m
  refine ⟨hcall, hsend, ?_⟩
  intro fuel rexp name argExps scope m args h1 h2 h
  rw [hcall fuel rexp name argExps scope m args h1 h2] at h
  have hm := Option.some.inj h
  have : "not a valid receiver: " ++ m = m := by
    injection hm
  exact prepend_ne (by decide) this

/-- Claim C10 witness: the call 1.foo() errs; using it as a receiver of a
further call still evaluates the (empty) argument list and produces the
doubled invalid-receiver error, distinct from the inner error. -/
theorem C10_error_receiver_witness :
    evalExpr 19 (.callExpression errArgExp "m" []) topScope =
      some (.errObj ("not a valid receiver: " ++ "not a valid receiver: 1"))
  ∧ sendMethodCall 19 (.errObj "e") "m" [] =
      some (.errObj ("not a valid receiver: " ++ "e"))
  ∧ evalExpr 19 (.callExpression errArgExp "m" []) topScope ≠
      some (.errObj "not a valid receiver: 1") :=
  ⟨C10_error_receiver.1 18 errArgExp "m" [] topScope "not a valid receiver: 1" []
      rfl rfl,
   C10_error_receiver.2.1 18 "m" [] "e",
   C10_error_receiver.2.2 18 errArgExp "m" [] topScope "not a valid receiver: 1" []
      rfl rfl⟩

end Rooby

namespace GobyArray

/-- The array of TestArrayIndex: [1, 2, 10, 5]. -/
def sampleArr : List GValue := [.integer 1, .integer 2, .integer 10, .integer 5]

/-- Claim C7: for every array and integer index, a[i] and a.at(i) agree and
leave the receiver unchanged; an index 0 ≤ i < len reads element i, an index
-len ≤ i < 0 reads element len+i, and anything else reads Null. -/
theorem C7_array_read :
    ∀ (a : List GValue) (i : Int),
      arrayAt a i = arrayIndex a i
    ∧ (arrayIndex a i).2 = a
    ∧ (arrayAt a i).2 = a
    ∧ (∀ j : Fin a.length, i = ((j : Nat) : Int) → (arrayIndex a i).1 = a.get j)
    ∧ (∀ j : Fin a.length, i = ((j : Nat) : Int) - (a.length : Int) →
        (arrayIndex a i).1 = a.get j)
    ∧ ((a.length : Int) ≤ i ∨ i < -(a.length : Int) → (arrayIndex a i).1 = .null) := by
  intro a i
  refine ⟨?_, ?_, ?_, ?_, ?_, ?_⟩
  · by_cases h1 : 0 ≤ i ∧ i < (a.length : Int)
    · have hc1 : ¬(i < -(a.length : Int) ∨ (a.length : Int) ≤ i) := by omega
      have hc2 : ¬ i < 0 := by omega
      simp [arrayAt, arrayIndex, normalizeIndex, h1, hc1, hc2]
    · by_cases h2 : -(a.length : Int) ≤ i ∧ i < 0
      · have hc1 : ¬(i < -(a.length : Int) ∨ (a.length : Int) ≤ i) := by omega
        simp [arrayAt, arrayIndex, normalizeIndex, h1, h2, hc1, h2.2]
      · have hc1 : i < -(a.length : Int) ∨ (a.length : Int) ≤ i := by omega
        simp [arrayAt, arrayIndex, normalizeIndex, h1, h2, hc1]
  · simp only [arrayIndex]
    split_ifs <;> rfl
  · simp only [arrayAt]
    cases normalizeIndex a.length i <;> rfl
  · intro j hj
    subst hj
    have hjlt : (((j : Nat) : Int)) < (a.length : Int) := by exact_mod_cast j.isLt
    have h1 : 0 ≤ (((j : Nat) : Int)) ∧ (((j : Nat) : Int)) < (a.length : Int) :=
      ⟨Int.natCast_nonneg _, hjlt⟩
    simp only [arrayIndex, if_pos h1]
    rw [show (((j : Nat) : Int)).toNat = (j : Nat) from by omega]
    rw [List.getD_eq_getElem a .null j.isLt, List.get_eq_getElem]
  · intro j hj
    subst hj
    have hjlt : (((j : Nat) : Int)) < (a.length : Int) := by exact_mod_cast j.isLt
    have hj0 : (0 : Int) ≤ ((j : Nat) : Int) := Int.natCast_nonneg _
    have h1 : ¬(0 ≤ (((j : Nat) : Int) - (a.length : Int)) ∧
        (((j : Nat) : Int) - (a.length : Int)) < (a.length : Int)) := by omega
    have h2 : -(a.length : Int) ≤ (((j : Nat) : Int) - (a.length : Int)) ∧
        (((j : Nat) : Int) - (a.length : Int)) < 0 := by omega
    simp only [arrayIndex, if_neg h1, if_pos h2]
    rw [show ((a.length : Int) + (((j : Nat) : Int) - (a.length : Int))).toNat
      = (j : Nat) from by omega]
    rw [List.getD_eq_getElem a .null j.isLt, List.get_eq_getElem]
  · intro h
    have h1 : ¬(0 ≤ i ∧ i < (a.length : Int)) := by omega
    have h2 : ¬(-(a.length : Int) ≤ i ∧ i < 0) := by omega
    simp [arrayIndex, h1, h2]

/-- Claim C7 witness: the read rules at the TestArrayIndex vectors —
[1,2,10,5][2] and [1,2,10,5][-2] are 10, out-of-range reads are Null, and
the receiver is unchanged. -/
theorem C7_array_read_witness :
    arrayAt sampleArr 2 = arrayIndex sampleArr 2
  ∧ (arrayIndex sampleArr 2).1 = .integer 10
  ∧ (arrayIndex sampleArr (-2)).1 = .integer 10
  ∧ (arrayIndex sampleArr (-5)).1 = .null
  ∧ (arrayIndex sampleArr 100).1 = .null
  ∧ (arrayIndex sampleArr 2).2 = sampleArr :=
  ⟨(C7_array_read sampleArr 2).1,
   (C7_array_read sampleArr 2).2.2.2.1 ⟨2, by decide⟩ (by decide),
   (C7_array_read sampleArr (-2)).2.2.2.2.1 ⟨2, by decide⟩ (by decide),
   (C7_array_read sampleArr (-5)).2.2.2.2.2 (Or.inr (by decide)),
   (C7_array_read sampleArr 100).2.2.2.2.2 (Or.inl (by decide)),
   (C7_array_read sampleArr 2).2.1⟩

/-- Claim C8: writing at i ≥ len makes the length i+1, fills every slot from
the old length up to (but excluding) i with Null, and puts v at i; a write at
in-range negative i stores v at position len+i. -/
theorem C8_array_write :
    ∀ (a : List GValue) (i : Int) (v : GValue),
      ((a.length : Int) ≤ i →
          (((arrayIndexSet a i v).2.length : Int) = i + 1
        ∧ (∀ j : Nat, a.length ≤ j → (j : Int) < i →
            (arrayIndexSet a i v).2.getD j (.errObj "") = .null)
        ∧ (arrayIndexSet a i v).2.getD i.toNat (.errObj "") = v))
    ∧ (-(a.length : Int) ≤ i → i < 0 →
        (arrayIndexSet a i v).2 = a.set ((a.length : Int) + i).toNat v) := by
  intro a i v
  constructor
  · intro hle
    have h0i : (0 : Int) ≤ i := le_trans (Int.natCast_nonneg _) hle
    simp only [arrayIndexSet, if_pos hle]
    refine ⟨?_, ?_, ?_⟩
    · simp only [List.length_append, List.length_replicate, List.length_cons,
        List.length_nil]
      push_cast
      omega
    · intro j hj1 hj2
      have hjk : j < a.length + (i.toNat - a.length) := by omega
      rw [List.getD_append _ _ _ _
        (by simp only [List.length_append, List.length_replicate]; omega)]
      rw [List.getD_append_right _ _ _ _ hj1]
      rw [List.getD_eq_getElem _ _ (by simp only [List.length_replicate]; omega)]
      simp
    · rw [List.getD_append_right _ _ _ _
        (by simp only [List.length_append, List.length_replicate]; omega)]
      rw [show i.toNat - (a ++ List.replicate (i.toNat - a.length)
          (GValue.null)).length = 0 from by
        simp only [List.length_append, List.length_replicate]; omega]
      rfl
  · intro hneg hlt
    have h1 : ¬ (a.length : Int) ≤ i := by omega
    have h2 : ¬ (0 : Int) ≤ i := by omega
    simp [arrayIndexSet, h1, h2, hneg]

/-- Claim C8 witness: the TestArrayIndex sparse-fill vector — a = [] then
a[10] = 100 gives length 11, Null at slot 0, and 100 at slot 10; and the
negative in-range write a[-2] = v on [1,2,10,5] hits slot 2. -/
theorem C8_array_write_witness :
    ((((arrayIndexSet ([] : List GValue) 10 (.integer 100)).2.length : Nat) : Int) = 11)
  ∧ (arrayIndexSet ([] : List GValue) 10 (.integer 100)).2.getD 0 (.errObj "") = .null
  ∧ (arrayIndexSet ([] : List GValue) 10 (.integer 100)).2.getD 10 (.errObj "")
      = .integer 100
  ∧ (arrayIndexSet sampleArr (-2) (.strVal "a")).2 =
      [.integer 1, .integer 2, .strVal "a", .integer 5] :=
  ⟨((C8_array_write [] 10 (.integer 100)).1 (by decide)).1,
   ((C8_array_write [] 10 (.integer 100)).1 (by decide)).2.1 0 (by decide) (by decide),
   ((C8_array_write [] 10 (.integer 100)).1 (by decide)).2.2,
   (C8_array_write sampleArr (-2) (.strVal "a")).2 (by decide) (by decide)⟩

/-- Claim C9: built-in argument validation yields language-level Error
values — concat's first non-Array argument (any Array arguments before it
notwithstanding) reports the wrong-argument-type error with the observed
kind, and shift called with any arguments reports the fixed-arity error and
leaves the receiver unchanged. -/
theorem C9_builtin_argument_errors :
    (∀ (pre : List GValue) (elements : List GValue) (x : GValue) (post : List GValue),
        (∀ y ∈ pre, isArrayG y = true) → isArrayG x = false →
        (arrayConcat elements (pre ++ x :: post)).1 =
          .errObj ("Expect argument to be Array. got=" ++ goTypeString x))
  ∧ (∀ (elements : List GValue) (a : GValue) (as : List GValue),
        arrayShift elements (a :: as) =
          (.errObj ("Expect 0 argument. got=" ++ toString ((a :: as).length)),
            elements)) := by
  constructor
  · intro pre
    induction pre with
    | nil =>
      intro elements x post hpre hx
      cases x with
      | array xs => simp [isArrayG] at hx
      | integer n => rfl
      | strVal s => rfl
      | boolean b => rfl
      | null => rfl
      | errObj msg => rfl
    | cons y rest ih =>
      intro elements x post hpre hx
      have hy := hpre y (by simp)
      cases y with
      | array ys =>
        exact ih (elements ++ ys) x post
          (fun z hz => hpre z (List.mem_cons_of_mem _ hz)) hx
      | integer n => simp [isArrayG] at hy
      | strVal s => simp [isArrayG] at hy
      | boolean b => simp [isArrayG] at hy
      | null => simp [isArrayG] at hy
      | errObj msg => simp [isArrayG] at hy
  · intro elements a as
    cases elements <;> rfl

/-- Claim C9 witness: the in-src failing tests — [1,2].concat(3) reports the
Integer kind, and [1,2].shift(3,3,4,5) reports expected 0 got 4 with the
receiver unchanged. -/
theorem C9_builtin_argument_errors_witness :
    (arrayConcat [.integer 1, .integer 2] [.integer 3]).1 =
      .errObj "Expect argument to be Array. got=*vm.IntegerObject"
  ∧ arrayShift [.integer 1, .integer 2]
      [.integer 3, .integer 3, .integer 4, .integer 5] =
      (.errObj "Expect 0 argument. got=4", [.integer 1, .integer 2]) :=
  ⟨C9_builtin_argument_errors.1 [] [.integer 1, .integer 2] (.integer 3) []
      (by simp) rfl,
   C9_builtin_argument_errors.2 [.integer 1, .integer 2] (.integer 3)
      [.integer 3, .integer 4, .integer 5]⟩

end GobyArray
